import Mathlib

/-!
Shallow embedding of the tk-window Wayland protocol core.

Two generations of the backend are embedded:

* namespace `WL`  — `src/Source/Wayland.c` (the waterlily generation):
  module state `pClose`, `pScale`, `pWidth`, `pHeight` plus the proxy
  globals; the toplevel configure handler stores logical size times the
  current scale and commits; `windowGetSize` returns the stored values.
* namespace `TKW` — `src/Source/Targets/Wayland.c` (the tkwin generation):
  module state `pScaleFactor`, `pWidth`, `pHeight`; the toplevel configure
  handler stores the logical size only, and
  `tkwin_waylandGetFramebufferSize` multiplies by the scale factor at
  read time.

Machine integers are modelled as `Int` (for C `int32_t` values) and `Nat`
(for C `uint32_t` values), with the C conversion to `uint32_t` made
explicit as reduction modulo `2 ^ 32`. Inbound protocol events are an
inductive type; each listener callback of the C source becomes one arm of
`dispatchEvent`, which returns the updated state together with the list of
wire requests the callback issues.
-/

/-- C conversion of a (mathematical) integer to `uint32_t`: reduction
modulo `2 ^ 32`, as in the cast `(uint32_t)(w * pScale)` of
`Source/Wayland.c` and the implicit conversions of
`Source/Targets/Wayland.c`. -/
def intToU32 (i : Int) : Nat := (i % (2 ^ 32)).toNat

/-- `uint32_t` multiplication: multiply and reduce modulo `2 ^ 32`,
as in `*width = pWidth * pScaleFactor` of `Source/Targets/Wayland.c`. -/
def u32mul (a b : Nat) : Nat := (a * b) % (2 ^ 32)

/-- Result of `wl_display_dispatch`: the C library returns `-1` when the
connection is no longer usable and the number of dispatched events
otherwise. The transport outcome is modelled as `Option Nat`
(`none` = unusable). -/
def wl_display_dispatch : Option Nat → Int
  | none => -1
  | some n => n

namespace WL

/-- Registry global announcements of interest to `handleGlobal`
(`Source/Wayland.c`, registry listener). -/
inductive Global
  | compositor
  | wmBase
  | output
  | other
deriving DecidableEq, Repr

/-- Bind-time actions issued by `handleGlobal`, recorded in order: the
`wl_registry_bind` call and the immediately following
`wl_proxy_add_listener` call where the source has one. -/
inductive BindAction
  | bindCompositor
  | bindShell
  | addShellListener
  | bindOutput
  | addOutputListener
deriving DecidableEq, Repr

/-- Outbound wire requests issued by the core of `Source/Wayland.c`. -/
inductive Request
  | pong (serial : Nat)
  | ackConfigure (serial : Nat)
  | commit
  | createSurface
  | getXdgSurface
  | getToplevel
  | setTitle
  | setAppId
  | setFullscreen
  | destroyToplevel
  | destroyShellSurface
  | destroyShell
  | destroySurface
  | destroyCompositor
  | releaseOutput
  | destroyRegistry
  | disconnectDisplay
deriving DecidableEq, Repr

/-- Inbound events the listeners of `Source/Wayland.c` can receive:
`xdg_wm_base.ping`, `xdg_surface.configure`, the four `xdg_toplevel`
events and the six `wl_output` events. -/
inductive Event
  | ping (serial : Nat)
  | sconfigure (serial : Nat)
  | topConfigure (w h : Int) (states : List Int)
  | close
  | bounds (w h : Int)
  | capabilities (caps : List Int)
  | geometry
  | mode
  | done
  | scale (s : Int)
  | oname
  | odescription
deriving DecidableEq, Repr

/-- The module-level state of `Source/Wayland.c`: the close flag, the
eight proxy globals (modelled as `Option Nat` handles, `none` = null),
whether the shell listener has been installed, and the scale and size
fields. -/
structure State where
  pClose : Bool
  pDisplay : Option Nat
  pRegistry : Option Nat
  pCompositor : Option Nat
  pSurface : Option Nat
  pOutput : Option Nat
  pShell : Option Nat
  pShellSurface : Option Nat
  pToplevel : Option Nat
  shellListenerInstalled : Bool
  pScale : Int
  pWidth : Nat
  pHeight : Nat
deriving DecidableEq, Repr

/-- The initializers of the statics of `Source/Wayland.c`:
`pClose = false`, every proxy `nullptr`, `pScale = 0`, `pWidth = 0`,
`pHeight = 0`. -/
def initState : State :=
  { pClose := false
    pDisplay := none
    pRegistry := none
    pCompositor := none
    pSurface := none
    pOutput := none
    pShell := none
    pShellSurface := none
    pToplevel := none
    shellListenerInstalled := false
    pScale := 0
    pWidth := 0
    pHeight := 0 }

/-- One listener invocation: the event handlers of `Source/Wayland.c`,
one arm per callback.

* `ping`          — sends `xdg_wm_base.pong` with the same serial.
* `sconfigure`    — sends `xdg_surface.ack_configure` with the same serial.
* `topConfigure`  — `pWidth = (uint32_t)(w * pScale)`,
  `pHeight = (uint32_t)(h * pScale)`, then `wl_surface_commit`.
* `close`         — sets `pClose = true`.
* `scale`         — stores the factor into `pScale`.
* all remaining callbacks only log or are empty. -/
def dispatchEvent (st : State) : Event → State × List Request
  | .ping s => (st, [.pong s])
  | .sconfigure s => (st, [.ackConfigure s])
  | .topConfigure w h _ =>
      ({ st with
          pWidth := intToU32 (w * st.pScale)
          pHeight := intToU32 (h * st.pScale) },
        [.commit])
  | .close => ({ st with pClose := true }, [])
  | .scale s => ({ st with pScale := s }, [])
  | _ => (st, [])

/-- Sequential dispatch of a batch of inbound events, as performed by one
`wl_display_dispatch` call: handlers run in arrival order, requests are
emitted in order. -/
def processEvents : State → List Event → State × List Request
  | st, [] => (st, [])
  | st, e :: rest =>
      ((processEvents (dispatchEvent st e).1 rest).1,
        (dispatchEvent st e).2 ++ (processEvents (dispatchEvent st e).1 rest).2)

/-- The state effect of `handleGlobal` (`Source/Wayland.c`): binding the
compositor, the `xdg_wm_base` shell (whose listener is installed on the
spot), or the output; any other interface is ignored. Handle values are
arbitrary distinct non-null tokens. -/
def handleGlobal (st : State) : Global → State
  | .compositor => { st with pCompositor := some 1 }
  | .wmBase => { st with pShell := some 2, shellListenerInstalled := true }
  | .output => { st with pOutput := some 3 }
  | .other => st

/-- The bind-time action trace of `handleGlobal`: for the shell global the
`wl_proxy_add_listener` call for `pShellListener` immediately follows the
bind; for the output the `wl_output_add_listener` call follows the bind. -/
def handleGlobalTrace : Global → List BindAction
  | .compositor => [.bindCompositor]
  | .wmBase => [.bindShell, .addShellListener]
  | .output => [.bindOutput, .addOutputListener]
  | .other => []

/-- `windowCreate` (`Source/Wayland.c`): connect to the display, run the
registry round trip (processing the announced globals), and then — only
when both `pCompositor` and `pShell` were bound — create the surface
chain and issue the title, app-id and fullscreen requests. The returned
triple is the boolean result, the resulting state, and the surface-chain
requests issued. -/
def windowCreate (displayOk : Bool) (globals : List Global) :
    Bool × State × List Request :=
  if displayOk then
    let st :=
      (globals.foldl handleGlobal
        { initState with pDisplay := some 10, pRegistry := some 11 })
    if st.pCompositor = none ∨ st.pShell = none then (false, st, [])
    else
      (true,
        { st with
            pSurface := some 12
            pShellSurface := some 13
            pToplevel := some 14 },
        [.createSurface, .getXdgSurface, .getToplevel, .setTitle,
          .setAppId, .setFullscreen])
  else (false, initState, [])

/-- `windowDestroy` (`Source/Wayland.c`), as the ordered list of teardown
requests it issues: toplevel destroy, shell-surface destroy, shell
(`xdg_wm_base`) destroy, then `wl_surface_destroy`,
`wl_compositor_destroy`, `wl_output_release`, `wl_registry_destroy`,
`wl_display_disconnect`. -/
def windowDestroy : List Request :=
  [.destroyToplevel, .destroyShellSurface, .destroyShell, .destroySurface,
    .destroyCompositor, .releaseOutput, .destroyRegistry,
    .disconnectDisplay]

/-- `windowProcess` (`Source/Wayland.c`):
`return wl_display_dispatch(pDisplay) != -1;`. -/
def windowProcess (d : Option Nat) : Bool :=
  decide (wl_display_dispatch d ≠ -1)

/-- `windowGetSize` (`Source/Wayland.c`): writes `pWidth` and `pHeight`
through the out parameters; the state is returned unchanged since the
body only reads the globals. -/
def windowGetSize (st : State) : State × (Nat × Nat) :=
  (st, (st.pWidth, st.pHeight))

/-- `windowGetData` (`Source/Wayland.c`): writes `pDisplay` into slot 0
and `pSurface` into slot 1 of the caller-supplied array; the state is
returned unchanged. -/
def windowGetData (st : State) : State × List (Option Nat) :=
  (st, [st.pDisplay, st.pSurface])

/-- The operations the core exposes after creation: an event-dispatch
call delivering a batch of events, the two accessors, and teardown
(whose body issues requests but reassigns no module state). -/
inductive CoreOp
  | dispatchOp (evs : List Event)
  | getSizeOp
  | getDataOp
  | destroyOp
deriving Repr

/-- State effect of each core operation. -/
def applyOp (st : State) : CoreOp → State
  | .dispatchOp evs => (processEvents st evs).1
  | .getSizeOp => (windowGetSize st).1
  | .getDataOp => (windowGetData st).1
  | .destroyOp => st

end WL

namespace TKW

/-- Registry global announcements of interest to `handleGlobal`
(`Source/Targets/Wayland.c`, registry listener). -/
inductive Global
  | compositor
  | wmBase
  | output
  | other
deriving DecidableEq, Repr

/-- Bind-time actions issued by `handleGlobal` of
`Source/Targets/Wayland.c`, in order. -/
inductive BindAction
  | bindCompositor
  | bindShell
  | addShellListener
  | bindOutput
  | addOutputListener
deriving DecidableEq, Repr

/-- Outbound wire requests issued by `Source/Targets/Wayland.c`. -/
inductive Request
  | pong (serial : Nat)
  | ackConfigure (serial : Nat)
  | commit
  | createSurface
  | getXdgSurface
  | getToplevel
  | setTitle
  | setAppId
  | setFullscreen
deriving DecidableEq, Repr

/-- Inbound events the listeners of `Source/Targets/Wayland.c` can
receive. -/
inductive Event
  | ping (serial : Nat)
  | sconfigure (serial : Nat)
  | topConfigure (w h : Int) (states : List Int)
  | close
  | bounds (w h : Int)
  | capabilities (caps : List Int)
  | geometry
  | mode
  | done
  | scale (s : Int)
  | oname
  | odescription
deriving DecidableEq, Repr

/-- The module-level state of `Source/Targets/Wayland.c`, plus the
facade close flag of `Source/TKWindow.c` that `handleTopClose` sets
through `rpgtk_windowClose`. -/
structure State where
  pDisplay : Option Nat
  pRegistry : Option Nat
  pCompositor : Option Nat
  pShell : Option Nat
  pOutput : Option Nat
  pSurface : Option Nat
  pShellSurface : Option Nat
  pToplevel : Option Nat
  shellListenerInstalled : Bool
  pScaleFactor : Int
  pWidth : Nat
  pHeight : Nat
  closeRequested : Bool
deriving DecidableEq, Repr

/-- The initializers of the statics of `Source/Targets/Wayland.c`:
every proxy `nullptr`, `pScaleFactor = 0`, `pWidth = 0`, `pHeight = 0`;
the facade close flag starts unset by a close event. -/
def initState : State :=
  { pDisplay := none
    pRegistry := none
    pCompositor := none
    pShell := none
    pOutput := none
    pSurface := none
    pShellSurface := none
    pToplevel := none
    shellListenerInstalled := false
    pScaleFactor := 0
    pWidth := 0
    pHeight := 0
    closeRequested := false }

/-- One listener invocation, one arm per callback of
`Source/Targets/Wayland.c`.

* `ping`         — `handlePing` sends `xdg_wm_base_pong` with the serial.
* `sconfigure`   — `handleConfigure` sends `xdg_surface_ack_configure`
  with the serial.
* `topConfigure` — `handleTopConfigure` stores the logical `width` and
  `height` into `pWidth` and `pHeight` and prints; it issues no request.
* `close`        — `handleTopClose` calls `rpgtk_windowClose`, which sets
  the facade close flag.
* `scale`        — `handleScale` stores the factor into `pScaleFactor`.
* all remaining callbacks ignore their arguments. -/
def dispatchEvent (st : State) : Event → State × List Request
  | .ping s => (st, [.pong s])
  | .sconfigure s => (st, [.ackConfigure s])
  | .topConfigure w h _ =>
      ({ st with pWidth := intToU32 w, pHeight := intToU32 h }, [])
  | .close => ({ st with closeRequested := true }, [])
  | .scale s => ({ st with pScaleFactor := s }, [])
  | _ => (st, [])

/-- Sequential dispatch of a batch of inbound events, in arrival order. -/
def processEvents : State → List Event → State × List Request
  | st, [] => (st, [])
  | st, e :: rest =>
      ((processEvents (dispatchEvent st e).1 rest).1,
        (dispatchEvent st e).2 ++ (processEvents (dispatchEvent st e).1 rest).2)

/-- The state effect of `handleGlobal` (`Source/Targets/Wayland.c`):
binds the compositor at version 1, the `xdg_wm_base` shell at version 1
(installing its listener on the spot), or the output at version 2. -/
def handleGlobal (st : State) : Global → State
  | .compositor => { st with pCompositor := some 1 }
  | .wmBase => { st with pShell := some 2, shellListenerInstalled := true }
  | .output => { st with pOutput := some 3 }
  | .other => st

/-- The bind-time action trace of `handleGlobal`
(`Source/Targets/Wayland.c`): `xdg_wm_base_add_listener` immediately
follows the shell bind; `wl_output_add_listener` follows the output
bind. -/
def handleGlobalTrace : Global → List BindAction
  | .compositor => [.bindCompositor]
  | .wmBase => [.bindShell, .addShellListener]
  | .output => [.bindOutput, .addOutputListener]
  | .other => []

/-- The registry round trip of `tkwin_waylandCreate`: fold the announced
globals through `handleGlobal` starting from the freshly connected
state. -/
def bindGlobals (globals : List Global) : State :=
  globals.foldl handleGlobal
    { initState with pDisplay := some 10, pRegistry := some 11 }

/-- `tkwin_waylandCreate` (`Source/Targets/Wayland.c`): connect to the
display, run the registry round trip, then — with no check that the
compositor or shell was actually bound — create the surface chain, set
title, app id and fullscreen, commit, run a second round trip (during
which `roundtripEvents` are dispatched), and commit again. Returns the
boolean result, the resulting state, and the ordered request trace. -/
def tkwin_waylandCreate (displayOk : Bool) (globals : List Global)
    (roundtripEvents : List Event) : Bool × State × List Request :=
  if displayOk then
    let st :=
      { bindGlobals globals with
          pSurface := some 12
          pShellSurface := some 13
          pToplevel := some 14 }
    let r := processEvents st roundtripEvents
    (true, r.1,
      [.createSurface, .getXdgSurface, .getToplevel, .setTitle, .setAppId,
        .setFullscreen, .commit] ++ r.2 ++ [.commit])
  else (false, initState, [])

/-- `tkwin_waylandDestroy` (`Source/Targets/Wayland.c`): the body is
empty, so no teardown request is issued. -/
def tkwin_waylandDestroy : List Request := []

/-- `tkwin_waylandPoll` (`Source/Targets/Wayland.c`):
`return wl_display_dispatch(pDisplay) != -1;`. -/
def tkwin_waylandPoll (d : Option Nat) : Bool :=
  decide (wl_display_dispatch d ≠ -1)

/-- `tkwin_waylandGetFramebufferSize` (`Source/Targets/Wayland.c`):
writes `pWidth * pScaleFactor` and `pHeight * pScaleFactor` (computed in
`uint32_t` arithmetic) through the out parameters; the state is returned
unchanged since the body only reads the globals. -/
def tkwin_waylandGetFramebufferSize (st : State) : State × (Nat × Nat) :=
  (st,
    (u32mul st.pWidth (intToU32 st.pScaleFactor),
      u32mul st.pHeight (intToU32 st.pScaleFactor)))

/-- `tkwin_waylandGetSurfaceData` (`Source/Targets/Wayland.c`): writes
`pDisplay` into slot 0 and `pSurface` into slot 1; the state is returned
unchanged. -/
def tkwin_waylandGetSurfaceData (st : State) : State × List (Option Nat) :=
  (st, [st.pDisplay, st.pSurface])

/-- Spec-side reading of the most recently reported logical width in an
event sequence, as stored by `handleTopConfigure` (converted to
`uint32_t`); `d` is the value before the sequence. -/
def lastLogicalWidthFrom (d : Nat) : List Event → Nat
  | [] => d
  | .topConfigure w _ _ :: rest => lastLogicalWidthFrom (intToU32 w) rest
  | _ :: rest => lastLogicalWidthFrom d rest

/-- Spec-side reading of the most recently reported logical height in an
event sequence; `d` is the value before the sequence. -/
def lastLogicalHeightFrom (d : Nat) : List Event → Nat
  | [] => d
  | .topConfigure _ h _ :: rest => lastLogicalHeightFrom (intToU32 h) rest
  | _ :: rest => lastLogicalHeightFrom d rest

/-- Spec-side reading of the most recently reported output scale factor
in an event sequence; `d` is the value before the sequence. -/
def lastScaleFrom (d : Int) : List Event → Int
  | [] => d
  | .scale s :: rest => lastScaleFrom s rest
  | _ :: rest => lastScaleFrom d rest

end TKW

/-- Helper: no single listener callback of `Source/Wayland.c` clears a
set close flag (only the close callback writes `pClose`, and it writes
`true`). -/
theorem WL.dispatchEvent_pClose (st : WL.State) (e : WL.Event)
    (h : st.pClose = true) : ((WL.dispatchEvent st e).1).pClose = true := by
  cases e <;> simp [WL.dispatchEvent, h]

/-- Helper: a whole dispatched batch of events leaves a set close flag
set in `Source/Wayland.c`. -/
theorem WL.processEvents_pClose (st : WL.State) (evs : List WL.Event)
    (h : st.pClose = true) : ((WL.processEvents st evs).1).pClose = true := by
  induction evs generalizing st with
  | nil => exact h
  | cons e rest ih => exact ih _ (WL.dispatchEvent_pClose st e h)

/-- Helper: no listener callback of `Source/Wayland.c` touches the
installed shell listener. -/
theorem WL.dispatchEvent_shell (st : WL.State) (e : WL.Event) :
    ((WL.dispatchEvent st e).1).shellListenerInstalled =
      st.shellListenerInstalled := by
  cases e <;> rfl

/-- Helper: dispatching a batch of events leaves the installed shell
listener in place. -/
theorem WL.processEvents_shell (st : WL.State) (evs : List WL.Event) :
    ((WL.processEvents st evs).1).shellListenerInstalled =
      st.shellListenerInstalled := by
  induction evs generalizing st with
  | nil => rfl
  | cons e rest ih =>
      exact (ih (WL.dispatchEvent st e).1).trans (WL.dispatchEvent_shell st e)

/-- Helper: no core operation removes the installed shell listener. -/
theorem WL.applyOp_shell (st : WL.State) (op : WL.CoreOp) :
    (WL.applyOp st op).shellListenerInstalled = st.shellListenerInstalled := by
  cases op with
  | dispatchOp evs => exact WL.processEvents_shell st evs
  | getSizeOp => rfl
  | getDataOp => rfl
  | destroyOp => rfl

/-- Helper: no listener callback of `Source/Targets/Wayland.c` clears
the facade close flag once set. -/
theorem TKW.dispatchEvent_closeRequested (st : TKW.State) (e : TKW.Event)
    (h : st.closeRequested = true) :
    ((TKW.dispatchEvent st e).1).closeRequested = true := by
  cases e <;> simp [TKW.dispatchEvent, h]

/-- Helper: a dispatched batch of events leaves a set facade close flag
set in `Source/Targets/Wayland.c`. -/
theorem TKW.processEvents_closeRequested (st : TKW.State)
    (evs : List TKW.Event) (h : st.closeRequested = true) :
    ((TKW.processEvents st evs).1).closeRequested = true := by
  induction evs generalizing st with
  | nil => exact h
  | cons e rest ih => exact ih _ (TKW.dispatchEvent_closeRequested st e h)

/-- Helper: after dispatching a batch of events, `pWidth`, `pHeight` and
`pScaleFactor` of `Source/Targets/Wayland.c` hold exactly the most
recently reported logical width, logical height and scale factor. -/
theorem TKW.processEvents_fields (evs : List TKW.Event) (st : TKW.State) :
    ((TKW.processEvents st evs).1).pWidth =
        TKW.lastLogicalWidthFrom st.pWidth evs ∧
      ((TKW.processEvents st evs).1).pHeight =
        TKW.lastLogicalHeightFrom st.pHeight evs ∧
      ((TKW.processEvents st evs).1).pScaleFactor =
        TKW.lastScaleFrom st.pScaleFactor evs := by
  induction evs generalizing st with
  | nil =>
      simp [TKW.processEvents, TKW.lastLogicalWidthFrom,
        TKW.lastLogicalHeightFrom, TKW.lastScaleFrom]
  | cons e rest ih =>
      cases e <;>
        simp [TKW.processEvents, TKW.dispatchEvent, TKW.lastLogicalWidthFrom,
          TKW.lastLogicalHeightFrom, TKW.lastScaleFrom, ih]

/-- Claim C1, counterexample. The claimed law fails for `windowGetSize`
of `Source/Wayland.c`: after the event sequence scale 1, toplevel
configure 10 x 10, scale 2, the accessor returns the size stored at
configure time, 10 x 10, while the most recently reported logical size
(10 x 10) times the most recently reported scale factor (2) is
20 x 20. -/
theorem scale_after_configure_ignored_by_windowGetSize :
    (WL.windowGetSize
        (WL.processEvents WL.initState
          [WL.Event.scale 1, WL.Event.topConfigure 10 10 [],
            WL.Event.scale 2]).1).2 = (10, 10) ∧
      (10, 10) ≠ (u32mul 10 (intToU32 2), u32mul 10 (intToU32 2)) := by
  exact ⟨by decide, by decide⟩

/-- Claim C1, as amended: the law holds for
`tkwin_waylandGetFramebufferSize` of `Source/Targets/Wayland.c` — for
every event sequence, in every arrival order, the returned size is the
most recently reported logical size times the most recently reported
scale factor (in `uint32_t` arithmetic, both defaulting to 0 before the
first report); `windowGetSize` of `Source/Wayland.c` instead reflects
the scale factor that was current at the last configure event. -/
theorem framebuffer_size_is_last_logical_times_last_scale
    (evs : List TKW.Event) :
    (TKW.tkwin_waylandGetFramebufferSize
        (TKW.processEvents TKW.initState evs).1).2 =
      (u32mul (TKW.lastLogicalWidthFrom 0 evs)
          (intToU32 (TKW.lastScaleFrom 0 evs)),
        u32mul (TKW.lastLogicalHeightFrom 0 evs)
          (intToU32 (TKW.lastScaleFrom 0 evs))) := by
  obtain ⟨h1, h2, h3⟩ := TKW.processEvents_fields evs TKW.initState
  show
    (u32mul ((TKW.processEvents TKW.initState evs).1.pWidth)
        (intToU32 ((TKW.processEvents TKW.initState evs).1.pScaleFactor)),
      u32mul ((TKW.processEvents TKW.initState evs).1.pHeight)
        (intToU32 ((TKW.processEvents TKW.initState evs).1.pScaleFactor))) = _
  rw [h1, h2, h3]
  rfl

/-- Claim C2, counterexample. Both generations initialize the monitor
scale factor to 0, not 1; the state reached by a successful
`windowCreate` still carries scale 0. -/
theorem initial_scale_factor_not_one :
    WL.initState.pScale ≠ 1 ∧ TKW.initState.pScaleFactor ≠ 1 ∧
      ((WL.windowCreate true
          [WL.Global.compositor, WL.Global.wmBase,
            WL.Global.output]).2.1).pScale ≠ 1 := by
  decide

/-- Claim C2, as amended: in the initial connection state the scale
factor equals 0 in both generations, so a toplevel configure dispatched
before any scale event stores size 0 x 0 in `Source/Wayland.c`. -/
theorem initial_scale_factor_is_zero :
    WL.initState.pScale = 0 ∧ TKW.initState.pScaleFactor = 0 ∧
      ((WL.windowCreate true
          [WL.Global.compositor, WL.Global.wmBase,
            WL.Global.output]).2.1).pScale = 0 ∧
      (WL.windowGetSize
          (WL.processEvents WL.initState
            [WL.Event.topConfigure 640 480 []]).1).2 = (0, 0) := by
  decide

/-- Claim C3 (confirmed): once the close flag is set, every core
operation — further event-dispatch batches, both accessors, and
teardown — leaves it set, in both generations; no core operation ever
clears it. -/
theorem close_flag_monotone (st : WL.State) (op : WL.CoreOp)
    (st2 : TKW.State) (evs : List TKW.Event) (h1 : st.pClose = true)
    (h2 : st2.closeRequested = true) :
    (WL.applyOp st op).pClose = true ∧
      ((TKW.processEvents st2 evs).1).closeRequested = true := by
  refine ⟨?_, TKW.processEvents_closeRequested st2 evs h2⟩
  cases op with
  | dispatchOp evs2 => exact WL.processEvents_pClose st evs2 h1
  | getSizeOp => exact h1
  | getDataOp => exact h1
  | destroyOp => exact h1

/-- Witness for claim C3 at a concrete closed state, a dispatch batch of
unrelated scale and configure events. -/
theorem close_flag_monotone_witness :
    (WL.applyOp { WL.initState with pClose := true }
        (WL.CoreOp.dispatchOp
          [WL.Event.scale 2, WL.Event.topConfigure 3 4 []])).pClose = true ∧
      ((TKW.processEvents { TKW.initState with closeRequested := true }
          [TKW.Event.scale 2,
            TKW.Event.topConfigure 3 4 []]).1).closeRequested = true :=
  close_flag_monotone _ _ _ _ (by decide) (by decide)

/-- Claim C4 (code bug in `Source/Targets/Wayland.c`): when the registry
round trip binds neither a compositor nor a shell, `windowCreate` of
`Source/Wayland.c` fails fast (returns false, issues no surface-chain
request), but `tkwin_waylandCreate` performs no such check: it still
returns true and issues the surface-chain requests against the null
compositor and shell handles. -/
theorem tkwin_create_missing_global_still_builds_chain :
    (TKW.bindGlobals []).pCompositor = none ∧
      (TKW.bindGlobals []).pShell = none ∧
      (TKW.tkwin_waylandCreate true [] []).1 = true ∧
      TKW.Request.createSurface ∈ (TKW.tkwin_waylandCreate true [] []).2.2 ∧
      TKW.Request.getXdgSurface ∈ (TKW.tkwin_waylandCreate true [] []).2.2 ∧
      (WL.windowCreate true []).1 = false ∧
      (WL.windowCreate true []).2.2 = [] := by
  decide

/-- Claim C5 (confirmed): in both generations a dispatched ping is
answered, in every state, by exactly one pong carrying the same serial;
the shell listener is installed immediately at bind time (the
add-listener call directly follows the bind in the registry handler) and
no core operation ever removes it. -/
theorem ping_answered_with_pong_same_serial :
    (∀ (st : WL.State) (s : Nat),
        (WL.dispatchEvent st (WL.Event.ping s)).2 = [WL.Request.pong s]) ∧
      (∀ (st : TKW.State) (s : Nat),
        (TKW.dispatchEvent st (TKW.Event.ping s)).2 = [TKW.Request.pong s]) ∧
      WL.handleGlobalTrace WL.Global.wmBase =
        [WL.BindAction.bindShell, WL.BindAction.addShellListener] ∧
      TKW.handleGlobalTrace TKW.Global.wmBase =
        [TKW.BindAction.bindShell, TKW.BindAction.addShellListener] ∧
      (∀ (st : WL.State),
        (WL.handleGlobal st WL.Global.wmBase).shellListenerInstalled = true) ∧
      (∀ (st : WL.State) (op : WL.CoreOp),
        (WL.applyOp st op).shellListenerInstalled =
          st.shellListenerInstalled) :=
  ⟨fun _ _ => rfl, fun _ _ => rfl, rfl, rfl, fun _ => rfl, WL.applyOp_shell⟩

/-- Claim C6, counterexample. In `tkwin_waylandCreate` the first
`wl_surface_commit` is issued before the round trip in which the first
shell-surface configure event is dispatched and acknowledged: in the
request trace of a creation run whose round trip delivers a configure
with serial 7, a commit occurs strictly before the acknowledgement. -/
theorem first_commit_precedes_first_ack :
    TKW.Request.ackConfigure 7 ∈
        (TKW.tkwin_waylandCreate true
          [TKW.Global.compositor, TKW.Global.wmBase, TKW.Global.output]
          [TKW.Event.sconfigure 7]).2.2 ∧
      ((TKW.tkwin_waylandCreate true
            [TKW.Global.compositor, TKW.Global.wmBase, TKW.Global.output]
            [TKW.Event.sconfigure 7]).2.2).indexOf TKW.Request.commit <
        ((TKW.tkwin_waylandCreate true
            [TKW.Global.compositor, TKW.Global.wmBase, TKW.Global.output]
            [TKW.Event.sconfigure 7]).2.2).indexOf
          (TKW.Request.ackConfigure 7) := by
  decide

/-- Claim C6, as amended: every dispatched shell-surface configure event
is acknowledged by exactly one ack-configure request echoing the same
serial, in both generations; in `tkwin_waylandCreate`, however, the
acknowledgement of the configure delivered in the creation round trip
falls after the first surface commit and before the second. -/
theorem configure_ack_echoes_serial_between_commits (s : Nat) :
    (∀ (st : TKW.State),
        (TKW.dispatchEvent st (TKW.Event.sconfigure s)).2 =
          [TKW.Request.ackConfigure s]) ∧
      (∀ (st : WL.State),
        (WL.dispatchEvent st (WL.Event.sconfigure s)).2 =
          [WL.Request.ackConfigure s]) ∧
      (TKW.tkwin_waylandCreate true
          [TKW.Global.compositor, TKW.Global.wmBase, TKW.Global.output]
          [TKW.Event.sconfigure s]).2.2 =
        [TKW.Request.createSurface, TKW.Request.getXdgSurface,
          TKW.Request.getToplevel, TKW.Request.setTitle,
          TKW.Request.setAppId, TKW.Request.setFullscreen,
          TKW.Request.commit, TKW.Request.ackConfigure s,
          TKW.Request.commit] :=
  ⟨fun _ => rfl, fun _ => rfl, rfl⟩

/-- Claim C7, counterexample. The teardown order of `windowDestroy` is
not the claimed one (the shell base object is destroyed before the base
surface, and the compositor before the output binding), and
`tkwin_waylandDestroy` has an empty body, destroying nothing at all. -/
theorem destroy_order_differs_from_claim :
    WL.windowDestroy ≠
        [WL.Request.destroyToplevel, WL.Request.destroyShellSurface,
          WL.Request.destroySurface, WL.Request.destroyShell,
          WL.Request.releaseOutput, WL.Request.destroyCompositor,
          WL.Request.destroyRegistry, WL.Request.disconnectDisplay] ∧
      TKW.tkwin_waylandDestroy = [] := by
  decide

/-- Claim C7, as amended: `windowDestroy` issues exactly eight teardown
requests in the order toplevel, shell-surface, shell base object, base
surface, compositor, output binding, registry, transport;
`tkwin_waylandDestroy` performs no teardown. -/
theorem destroy_order_actual :
    WL.windowDestroy.length = 8 ∧
      WL.windowDestroy.indexOf WL.Request.destroyToplevel = 0 ∧
      WL.windowDestroy.indexOf WL.Request.destroyShellSurface = 1 ∧
      WL.windowDestroy.indexOf WL.Request.destroyShell = 2 ∧
      WL.windowDestroy.indexOf WL.Request.destroySurface = 3 ∧
      WL.windowDestroy.indexOf WL.Request.destroyCompositor = 4 ∧
      WL.windowDestroy.indexOf WL.Request.releaseOutput = 5 ∧
      WL.windowDestroy.indexOf WL.Request.destroyRegistry = 6 ∧
      WL.windowDestroy.indexOf WL.Request.disconnectDisplay = 7 ∧
      TKW.tkwin_waylandDestroy = [] := by
  decide

/-- Claim C8 (confirmed): in both generations the dispatch entry point
returns false exactly when the transport reports the connection unusable
(`wl_display_dispatch` returning -1) and true otherwise; being a total
boolean function, it signals the failure as a return value, not as a
thrown fault. -/
theorem poll_false_iff_transport_failed (d : Option Nat) :
    (WL.windowProcess d = false ↔ d = none) ∧
      TKW.tkwin_waylandPoll d = WL.windowProcess d := by
  refine ⟨?_, rfl⟩
  cases d with
  | none => simp [WL.windowProcess, wl_display_dispatch]
  | some n => simp [WL.windowProcess, wl_display_dispatch]

/-- Claim C9, counterexample. In `Source/Targets/Wayland.c` a dispatched
toplevel configure event issues no surface commit at all, and it stores
the logical size unscaled: after a scale event with factor 2, configure
5 x 5 stores width 5 (the claim says a commit is issued and the stored
size is the logical size times the scale, width 10). -/
theorem tkwin_topConfigure_emits_no_commit :
    (TKW.processEvents TKW.initState
        [TKW.Event.scale 2, TKW.Event.topConfigure 5 5 []]).2 = [] ∧
      ((TKW.processEvents TKW.initState
          [TKW.Event.scale 2, TKW.Event.topConfigure 5 5 []]).1).pWidth = 5 ∧
      TKW.Request.commit ∉
        (TKW.processEvents TKW.initState
          [TKW.Event.scale 2, TKW.Event.topConfigure 5 5 []]).2 := by
  decide

/-- Claim C9, as amended: in `Source/Wayland.c` every dispatched
toplevel configure event stores the logical size times the current
scale and issues exactly one additional surface commit; in
`Source/Targets/Wayland.c` it stores the logical size unscaled (the
scale is applied by the accessor instead) and issues no commit. -/
theorem topConfigure_effects (st : WL.State) (st2 : TKW.State) (w h : Int)
    (sts : List Int) :
    ((WL.dispatchEvent st (WL.Event.topConfigure w h sts)).1).pWidth =
        intToU32 (w * st.pScale) ∧
      ((WL.dispatchEvent st (WL.Event.topConfigure w h sts)).1).pHeight =
        intToU32 (h * st.pScale) ∧
      (WL.dispatchEvent st (WL.Event.topConfigure w h sts)).2 =
        [WL.Request.commit] ∧
      ((TKW.dispatchEvent st2 (TKW.Event.topConfigure w h sts)).1).pWidth =
        intToU32 w ∧
      ((TKW.dispatchEvent st2 (TKW.Event.topConfigure w h sts)).1).pHeight =
        intToU32 h ∧
      (TKW.dispatchEvent st2 (TKW.Event.topConfigure w h sts)).2 = [] :=
  ⟨rfl, rfl, rfl, rfl, rfl, rfl⟩

/-- Claim C10 (confirmed): the get-size and get-data accessors of both
generations return the connection state unchanged in every field and
write only their prescribed outputs — the stored size for get-size, and
the display handle in slot 0 and the surface handle in slot 1 for
get-data. -/
theorem accessors_leave_state_unchanged (st : WL.State) (st2 : TKW.State) :
    (WL.windowGetSize st).1 = st ∧
      (WL.windowGetSize st).2 = (st.pWidth, st.pHeight) ∧
      (WL.windowGetData st).1 = st ∧
      (WL.windowGetData st).2 = [st.pDisplay, st.pSurface] ∧
      (TKW.tkwin_waylandGetFramebufferSize st2).1 = st2 ∧
      (TKW.tkwin_waylandGetSurfaceData st2).1 = st2 ∧
      (TKW.tkwin_waylandGetSurfaceData st2).2 = [st2.pDisplay, st2.pSurface] :=
  ⟨rfl, rfl, rfl, rfl, rfl, rfl, rfl⟩
